import Mathlib

/-!
Shallow embedding of `src/wrapper.py` (the XTTS Wolof Wrapper API), the
single FastAPI service of this repository, together with theorems
settling the specification claims about its result-URL normalization,
its error-to-status mapping, and its download endpoints.

Modelling conventions:
* Python strings are Lean `String`s; `str.startswith` and the Python
  `in` operator are modelled on the underlying character lists.
* The remote gradio call `client.predict` and the outbound HTTP fetch
  `requests.get` are abstracted as function parameters returning
  `Except String _`, the error side carrying the message text of the
  raised exception.
* Raising exceptions is modelled with `Except`; each endpoint returns,
  next to its result, the trace of outbound network requests it issued,
  so that statements about issuing or not issuing a network call are
  provable.
-/

/-- The `SPACE_URL` constant of `wrapper.py` (line 40): the fixed remote
base URL of the hosted inference Space. -/
def SPACE_URL : String := "https://dofbi-galsenai-xtts-v2-wolof-inference.hf.space"

/-- Fallback reference-audio URL hard-coded in `synthesize_speech`
(line 192 of `wrapper.py`). -/
def FALLBACK_REFERENCE_URL : String :=
  "https://github.com/Dremer404/AUDIO/raw/refs/heads/main/anta.wav"

/-- Detail string of the 429 quota `HTTPException` (lines 251-254). -/
def QUOTA_DETAIL : String :=
  "Quota GPU dépassé. Attendez quelques minutes ou utilisez un token HF valide."

/-- Detail string of the 401 authentication `HTTPException` (lines 256-259). -/
def AUTH_DETAIL : String :=
  "Problème d\x27authentification HF. Vérifiez votre token."

/-- Detail string of the 400 rejection raised in the download endpoint
(lines 312-316). -/
def INVALID_URL_DETAIL : String := "URL invalide - doit provenir du Space HF"

/-- A FastAPI `HTTPException`, carrying a status code and a detail message. -/
structure HTTPException where
  status_code : Nat
  detail : String
  deriving DecidableEq

/-- A Python exception value as observed by an `except Exception` clause:
either a FastAPI `HTTPException` (which subclasses `Exception` and is
therefore caught by such a clause) or a generic exception carrying its
message text. -/
inductive PyExc where
  | http (e : HTTPException)
  | generic (msg : String)
  deriving DecidableEq

/-- Python `str(e)` on an exception: Starlette renders an `HTTPException`
as its status code, a colon-space, and the detail; a generic exception
renders as its message. -/
def pyStrOfExc : PyExc → String
  | .http e => toString e.status_code ++ ": " ++ e.detail
  | .generic m => m

/-- Value returned by the remote gradio call: a bare string, or a
structured value (a dict of string fields, such as a path field). -/
inductive JsonVal where
  | str (s : String)
  | dict (fields : List (String × String))
  deriving DecidableEq

/-- Python `str(...)` of a result value, as used when the f-string of
`wrapper.py` line 240 interpolates `audio_url` into `download_url`.
For a dict this is its Python repr. -/
def pyStr : JsonVal → String
  | .str s => s
  | .dict fields =>
      "\x7b" ++ String.intercalate ", "
        (fields.map (fun p => "\x27" ++ p.1 ++ "\x27: \x27" ++ p.2 ++ "\x27")) ++ "\x7d"

/-- Python `s.startswith(p)`: the characters of `p` are a prefix of the
characters of `s`. -/
def startswith (s p : String) : Bool :=
  List.isPrefixOf p.data s.data

/-- Auxiliary for the Python `in` operator: does `pat` occur as a
contiguous run inside `s`? -/
def containsSub (pat : List Char) (s : List Char) : Bool :=
  match s with
  | [] => List.isPrefixOf pat []
  | c :: tail => List.isPrefixOf pat (c :: tail) || containsSub pat tail

/-- Python `pat in s` on strings: `pat` occurs as a contiguous substring
of `s`. -/
def pyIn (pat s : String) : Bool :=
  containsSub pat.data s.data

/-- Python `s.lower()`, modelled characterwise (the error texts matched
by the wrapper are ASCII). -/
def pyLower (s : String) : String :=
  String.mk (s.data.map Char.toLower)

/-- The result-normalization logic of `synthesize_speech` (`wrapper.py`
lines 222-233): a string starting with a gradio temp path or with a
slash is rewritten to an absolute URL under `SPACE_URL`; any other
string, and any non-string value, is kept unchanged. -/
def normalizeResult (result : JsonVal) : JsonVal :=
  match result with
  | .str s =>
      if startswith s "/tmp/gradio/" || startswith s "tmp/gradio/" then
        .str (SPACE_URL ++ "/gradio_api/file=" ++ s)
      else if startswith s "/" then
        .str (SPACE_URL ++ "/gradio_api/file=" ++ s)
      else .str s
  | other => other

/-- JSON body returned by `POST /synthesize` on success (`wrapper.py`
lines 237-244). -/
structure SynthResponse where
  status : String
  audio_url : JsonVal
  download_url : String
  text : String
  audio_reference : String
  authenticated : Bool
  deriving DecidableEq

/-- The `POST /synthesize` handler (`wrapper.py` lines 180-261).
`predict` abstracts the remote gradio call (the whole try-block up to
line 219, whose failure carries the exception text); `auth` is the
process-wide `AUTH_SUCCESS` flag.  Returns the HTTP outcome together
with the trace of remote calls issued (text and reference actually
passed to the Space). -/
def synthesize_speech (text : String) (audio_reference_url : Option String)
    (predict : String → String → Except String JsonVal) (auth : Bool) :
    Except HTTPException SynthResponse × List (String × String) :=
  let ref :=
    match audio_reference_url with
    | none => FALLBACK_REFERENCE_URL
    | some s => if s = "" then FALLBACK_REFERENCE_URL else s
  match predict text ref with
  | .ok result =>
      let audio_url := normalizeResult result
      (.ok { status := "success"
             audio_url := audio_url
             download_url := "/download?url=" ++ pyStr audio_url
             text := text
             audio_reference := ref
             authenticated := auth },
       [(text, ref)])
  | .error error_msg =>
      (.error
        (if pyIn "GPU quota" error_msg || pyIn "exceeded" error_msg then
          ⟨429, QUOTA_DETAIL⟩
         else if pyIn "401" error_msg || pyIn "authentication" (pyLower error_msg) then
          ⟨401, AUTH_DETAIL⟩
         else ⟨500, error_msg⟩),
       [(text, ref)])

/-- Projection: the `audio_url` field of a successful synthesis response. -/
def respAudioUrl : Except HTTPException SynthResponse → Option JsonVal
  | .ok r => some r.audio_url
  | .error _ => none

/-- Projection: the `audio_reference` field of a successful synthesis
response. -/
def respReference : Except HTTPException SynthResponse → Option String
  | .ok r => some r.audio_reference
  | .error _ => none

/-- A FastAPI `StreamingResponse` as built by the download endpoints:
raw byte content, a media type, and a content-disposition header. -/
structure StreamingResponse where
  content : String
  media_type : String
  content_disposition : String
  deriving DecidableEq

/-- The `GET /download` handler (`wrapper.py` lines 297-332).  `fetch`
abstracts `requests.get` inside `download_audio_from_hf`.  The guard is
the literal `url.startswith(SPACE_URL)` test of line 312; the
`HTTPException(400, ...)` it raises, like every other exception of the
try-block, is caught by the generic `except Exception` clause of line
330 and re-raised as a 500 whose detail is `str(e)`.  The second
component is the list of URLs actually fetched. -/
def download_audio (url : String) (fetch : String → Except String String) :
    Except HTTPException StreamingResponse × List String :=
  if startswith url SPACE_URL = false then
    (.error ⟨500, pyStrOfExc (PyExc.http ⟨400, INVALID_URL_DETAIL⟩)⟩, [])
  else
    match fetch url with
    | .ok audio_content =>
        (.ok ⟨audio_content, "audio/wav", "attachment; filename=audio.wav"⟩, [url])
    | .error e => (.error ⟨500, pyStrOfExc (PyExc.generic e)⟩, [url])

/-- The `POST /synthesize-download` handler (`wrapper.py` lines 263-295).
It calls `synthesize_speech` inside its try-block; any `HTTPException`
that call raises is caught by the generic `except Exception` clause of
line 293 and re-raised as a 500 whose detail is `str(e)`.  On success it
fetches the `audio_url` value and streams it back. -/
def synthesize_speech_download (text : String) (audio_reference_url : Option String)
    (predict : String → String → Except String JsonVal)
    (fetch : JsonVal → Except String String) (auth : Bool) :
    Except HTTPException StreamingResponse × List (String × String) :=
  let res := synthesize_speech text audio_reference_url predict auth
  match res.1 with
  | .ok result =>
      match fetch result.audio_url with
      | .ok audio_content =>
          (.ok ⟨audio_content, "audio/wav",
            "attachment; filename=audio_" ++ text.take 20 ++ ".wav"⟩, res.2)
      | .error err => (.error ⟨500, pyStrOfExc (PyExc.generic err)⟩, res.2)
  | .error exc => (.error ⟨500, pyStrOfExc (PyExc.http exc)⟩, res.2)

/-- Modelled from the claim wording: the origin of a URL string, i.e.
its scheme together with the authority (host) part, everything from the
start through the first slash that follows the scheme separator.  The
code of `wrapper.py` has no such function; this definition formalizes
the notion of origin the claim quantifies over. -/
def takeUntilSlash : List Char → List Char
  | [] => []
  | c :: cs => if c = '/' then [] else c :: takeUntilSlash cs

/-- Splits a character list at the first occurrence of the scheme
separator, returning the scheme part and the remainder, or `none` when
no separator occurs. -/
def splitScheme (l : List Char) : Option (List Char × List Char) :=
  match l with
  | [] => none
  | c :: cs =>
      if l.take 3 = [':', '/', '/'] then some ([], l.drop 3)
      else
        match splitScheme cs with
        | some (pre, rest) => some (c :: pre, rest)
        | none => none

/-- The origin (scheme and host) of a URL string; a string with no
scheme separator is returned whole. -/
def urlOrigin (u : String) : String :=
  match splitScheme u.data with
  | some (scheme, rest) =>
      String.mk (scheme ++ [':', '/', '/'] ++ takeUntilSlash rest)
  | none => u

/-! ### Helper lemmas -/

/-- If a nonempty character list is a boolean prefix of `s`, then `s`
begins with its head character. -/
theorem head_eq_of_isPrefixOf (c : Char) (p s : List Char)
    (h : List.isPrefixOf (c :: p) s = true) : s.head? = some c := by
  cases s with
  | nil => simp [List.isPrefixOf] at h
  | cons b bs =>
      rw [List.isPrefixOf_cons₂] at h
      have hcb : c = b := by
        have := (Bool.and_eq_true _ _).mp h
        exact eq_of_beq this.1
      simp [hcb]

/-- A string whose first character is `d` does not start with any
pattern whose first character differs from `d`. -/
theorem startswith_false_of_head (s : String) (c : Char) (p : List Char) (d : Char)
    (hs : s.data.head? = some d) (hne : c ≠ d) :
    List.isPrefixOf (c :: p) s.data = false := by
  cases hq : List.isPrefixOf (c :: p) s.data with
  | false => rfl
  | true =>
      have hc := head_eq_of_isPrefixOf c p s.data hq
      rw [hs] at hc
      exact absurd (Option.some.inj hc).symm hne

/-- A string beginning with a network scheme is passed through the
normalizer unchanged: none of the rewrite prefixes can match it. -/
theorem normalize_pass (s : String)
    (h : startswith s "http://" = true ∨ startswith s "https://" = true) :
    normalizeResult (JsonVal.str s) = JsonVal.str s := by
  have hh : s.data.head? = some 'h' := by
    rcases h with h | h
    · exact head_eq_of_isPrefixOf 'h' "ttp://".data s.data h
    · exact head_eq_of_isPrefixOf 'h' "ttps://".data s.data h
  have h1 : startswith s "/tmp/gradio/" = false :=
    startswith_false_of_head s '/' "tmp/gradio/".data 'h' hh (by decide)
  have h2 : startswith s "tmp/gradio/" = false :=
    startswith_false_of_head s 't' "mp/gradio/".data 'h' hh (by decide)
  have h3 : startswith s "/" = false :=
    startswith_false_of_head s '/' "".data 'h' hh (by decide)
  simp [normalizeResult, h1, h2, h3]

/-! ### Claim theorems -/

/-- C3: every string beginning with the local-temp prefix `/tmp/gradio/`
is rewritten by the normalizer to exactly `SPACE_URL` followed by
`/gradio_api/file=` followed by the original value, and the synthesis
endpoint reports that rewritten value as the audio URL. -/
theorem spec_C3 (s text : String) (auth : Bool)
    (h : startswith s "/tmp/gradio/" = true) :
    normalizeResult (JsonVal.str s) =
      JsonVal.str (SPACE_URL ++ "/gradio_api/file=" ++ s) ∧
    respAudioUrl (synthesize_speech text none
        (fun _ _ => Except.ok (JsonVal.str s)) auth).1 =
      some (JsonVal.str (SPACE_URL ++ "/gradio_api/file=" ++ s)) := by
  have hn : normalizeResult (JsonVal.str s) =
      JsonVal.str (SPACE_URL ++ "/gradio_api/file=" ++ s) := by
    simp [normalizeResult, h]
  exact ⟨hn, by simp [synthesize_speech, respAudioUrl, hn]⟩

/-- Witness for C3 at the scenario input of the spec: the remote result
`/tmp/gradio/abc.wav` yields the audio URL
`SPACE_URL/gradio_api/file=/tmp/gradio/abc.wav`. -/
theorem spec_C3_witness :
    normalizeResult (JsonVal.str "/tmp/gradio/abc.wav") =
      JsonVal.str (SPACE_URL ++ "/gradio_api/file=" ++ "/tmp/gradio/abc.wav") ∧
    respAudioUrl (synthesize_speech "Naka nga def" none
        (fun _ _ => Except.ok (JsonVal.str "/tmp/gradio/abc.wav")) true).1 =
      some (JsonVal.str (SPACE_URL ++ "/gradio_api/file=" ++ "/tmp/gradio/abc.wav")) :=
  spec_C3 "/tmp/gradio/abc.wav" "Naka nga def" true (by decide)

/-- C4: every string beginning with a network scheme is passed through
unchanged, both by the normalizer and in the endpoint response. -/
theorem spec_C4 (s text : String) (auth : Bool)
    (h : startswith s "http://" = true ∨ startswith s "https://" = true) :
    normalizeResult (JsonVal.str s) = JsonVal.str s ∧
    respAudioUrl (synthesize_speech text none
        (fun _ _ => Except.ok (JsonVal.str s)) auth).1 =
      some (JsonVal.str s) := by
  have hn := normalize_pass s h
  exact ⟨hn, by simp [synthesize_speech, respAudioUrl, hn]⟩

/-- Witness for C4 at a concrete absolute URL. -/
theorem spec_C4_witness :
    normalizeResult (JsonVal.str "http://example.com/a.wav") =
      JsonVal.str "http://example.com/a.wav" ∧
    respAudioUrl (synthesize_speech "hello" none
        (fun _ _ => Except.ok (JsonVal.str "http://example.com/a.wav")) false).1 =
      some (JsonVal.str "http://example.com/a.wav") :=
  spec_C4 "http://example.com/a.wav" "hello" false (Or.inl (by decide))

/-- C7: the normalizer is idempotent on already-absolute URLs:
normalizing twice equals normalizing once. -/
theorem spec_C7 (s : String)
    (h : startswith s "http://" = true ∨ startswith s "https://" = true) :
    normalizeResult (normalizeResult (JsonVal.str s)) =
      normalizeResult (JsonVal.str s) := by
  rw [normalize_pass s h, normalize_pass s h]

/-- Witness for C7 at a concrete absolute URL. -/
theorem spec_C7_witness :
    normalizeResult (normalizeResult (JsonVal.str "https://host.test/x.wav")) =
      normalizeResult (JsonVal.str "https://host.test/x.wav") :=
  spec_C7 "https://host.test/x.wav" (Or.inr (by decide))

/-- C5 counterexample: a structured (dict) remote result with a path
field is NOT rewritten; the endpoint reports the dict itself, which
differs from the absolute URL the claim requires. -/
theorem spec_C5_counterexample :
    respAudioUrl (synthesize_speech "t" none
        (fun _ _ => Except.ok (JsonVal.dict [("path", "/tmp/gradio/out.wav")])) false).1 =
      some (JsonVal.dict [("path", "/tmp/gradio/out.wav")]) ∧
    JsonVal.dict [("path", "/tmp/gradio/out.wav")] ≠
      JsonVal.str (SPACE_URL ++ "/gradio_api/file=" ++ "/tmp/gradio/out.wav") :=
  ⟨rfl, by decide⟩

/-- C5 amended: every non-string (structured) remote result is passed
through the normalizer, and reported by the endpoint, entirely
unchanged — no rewrite is applied to any path field. -/
theorem spec_C5_amended (text : String) (auth : Bool)
    (fields : List (String × String)) :
    normalizeResult (JsonVal.dict fields) = JsonVal.dict fields ∧
    respAudioUrl (synthesize_speech text none
        (fun _ _ => Except.ok (JsonVal.dict fields)) auth).1 =
      some (JsonVal.dict fields) :=
  ⟨rfl, rfl⟩

/-- C6 counterexample: an empty remote result string does not trigger
any failure — the endpoint returns a full success response whose
audio URL is the empty string. -/
theorem spec_C6_counterexample :
    (synthesize_speech "t" none (fun _ _ => Except.ok (JsonVal.str "")) false).1 =
      Except.ok { status := "success"
                  audio_url := JsonVal.str ""
                  download_url := "/download?url="
                  text := "t"
                  audio_reference := FALLBACK_REFERENCE_URL
                  authenticated := false } := by
  rfl

/-- C6 amended: the normalizer never fails: whenever the remote call
succeeds, the endpoint returns a success response whatever the value,
and an empty result string is passed through unchanged as the audio
URL; no result-unintelligible condition exists. -/
theorem spec_C6_amended (text : String) (ref : Option String) (auth : Bool)
    (v : JsonVal) :
    (respAudioUrl (synthesize_speech text ref
        (fun _ _ => Except.ok v) auth).1).isSome = true ∧
    respAudioUrl (synthesize_speech text ref
        (fun _ _ => Except.ok (JsonVal.str "")) auth).1 =
      some (JsonVal.str "") :=
  ⟨rfl, rfl⟩

/-- C8: when no reference audio URL is supplied, the fixed fallback
reference URL is the one passed to the remote call (it is the reference
component of the single traced remote invocation) and it is reported in
the response's audio_reference field. -/
theorem spec_C8 (text : String)
    (predict : String → String → Except String JsonVal) (auth : Bool)
    (v : JsonVal) :
    (synthesize_speech text none predict auth).2 =
      [(text, FALLBACK_REFERENCE_URL)] ∧
    respReference (synthesize_speech text none
        (fun _ _ => Except.ok v) auth).1 = some FALLBACK_REFERENCE_URL := by
  constructor
  · cases hp : predict text FALLBACK_REFERENCE_URL with
    | ok r => simp [synthesize_speech, hp]
    | error m => simp [synthesize_speech, hp]
  · rfl

/-- C10: supplying the empty string as the reference audio URL behaves
exactly as supplying no reference at all: the handler result is
identical, because the fallback test is Python falsiness. -/
theorem spec_C10 (text : String)
    (predict : String → String → Except String JsonVal) (auth : Bool) :
    synthesize_speech text (some "") predict auth =
      synthesize_speech text none predict auth := by
  rfl

/-- C2 counterexample: an error whose text is exactly Forbidden is
mapped to status 500, not 403 as the claim states — the code has no
forbidden branch at all. -/
theorem spec_C2_counterexample :
    (synthesize_speech "Naka nga def" none
        (fun _ _ => Except.error "Forbidden") false).1 =
      Except.error ⟨500, "Forbidden"⟩ ∧ (500 : Nat) ≠ 403 :=
  ⟨rfl, by decide⟩

/-- C2 amended: the status is selected by substring matching on the
error text in this order: text containing GPU quota or exceeded maps to
429 with the human-readable quota detail; otherwise text containing 401
or, case-insensitively, authentication maps to 401; every other error
text maps to 500 carrying the text itself.  There is no forbidden-to-403
mapping.  In particular the scenario text containing GPU quota exceeded
yields 429 with the quota detail. -/
theorem spec_C2_amended (text msg : String) (ref : Option String) (auth : Bool) :
    ((synthesize_speech text ref (fun _ _ => Except.error msg) auth).1 =
      Except.error
        (if pyIn "GPU quota" msg || pyIn "exceeded" msg then
          ⟨429, QUOTA_DETAIL⟩
         else if pyIn "401" msg || pyIn "authentication" (pyLower msg) then
          ⟨401, AUTH_DETAIL⟩
         else ⟨500, msg⟩)) ∧
    (synthesize_speech text ref
        (fun _ _ => Except.error "The remote Space raised: GPU quota exceeded") auth).1 =
      Except.error ⟨429, QUOTA_DETAIL⟩ :=
  ⟨rfl, rfl⟩

/-- C1 counterexample: a URL whose origin differs from the configured
Space origin — the Space host extended with an attacker-controlled
suffix — passes the guard, the fetch IS issued, and the endpoint
answers successfully, because the code checks a literal string prefix,
not the origin. -/
theorem spec_C1_counterexample :
    urlOrigin (SPACE_URL ++ ".attacker.example/audio.wav") ≠ SPACE_URL ∧
    (download_audio (SPACE_URL ++ ".attacker.example/audio.wav")
        (fun _ => Except.ok "RIFFdata")).2 =
      [SPACE_URL ++ ".attacker.example/audio.wav"] ∧
    (download_audio (SPACE_URL ++ ".attacker.example/audio.wav")
        (fun _ => Except.ok "RIFFdata")).1 =
      Except.ok ⟨"RIFFdata", "audio/wav", "attachment; filename=audio.wav"⟩ := by
  refine ⟨by decide, rfl, rfl⟩

/-- C1 amended: the download endpoint gates on a literal string-prefix
test against SPACE_URL, not on the URL's origin: a URL that does not
start with the SPACE_URL string is rejected with no fetch issued (the
rejection surfacing as a 500 wrapping the internal 400, see C9), and a
URL that does start with that string is fetched — even when its origin
differs. -/
theorem spec_C1_amended (url : String) (fetch : String → Except String String) :
    (startswith url SPACE_URL = false →
      download_audio url fetch =
        (Except.error ⟨500, "400: " ++ INVALID_URL_DETAIL⟩, [])) ∧
    (startswith url SPACE_URL = true →
      (download_audio url fetch).2 = [url]) := by
  constructor
  · intro h
    simp [download_audio, h, pyStrOfExc]
    rfl
  · intro h
    cases hf : fetch url with
    | ok c => simp [download_audio, h, hf]
    | error e => simp [download_audio, h, hf]

/-- Witness for C1: a foreign URL is rejected with no fetch; a URL under
the SPACE_URL prefix is fetched. -/
theorem spec_C1_witness :
    download_audio "https://elsewhere.example/audio.wav" (fun _ => Except.ok "x") =
      (Except.error ⟨500, "400: " ++ INVALID_URL_DETAIL⟩, []) ∧
    (download_audio (SPACE_URL ++ "/gradio_api/file=/tmp/gradio/abc.wav")
        (fun _ => Except.ok "x")).2 =
      [SPACE_URL ++ "/gradio_api/file=/tmp/gradio/abc.wav"] :=
  ⟨(spec_C1_amended "https://elsewhere.example/audio.wav"
      (fun _ => Except.ok "x")).1 (by decide),
   (spec_C1_amended (SPACE_URL ++ "/gradio_api/file=/tmp/gradio/abc.wav")
      (fun _ => Except.ok "x")).2 (by decide)⟩

/-- C9: in both relay endpoints every HTTP error raised inside the try
block is caught by the generic except clause and re-raised as a 500
whose detail is the string form of the original error.  For the
download endpoint, the 400 origin rejection surfaces as a 500 with the
stringified 400 as detail and no fetch issued; for synthesize-download,
whatever HTTPException the synthesis step raises — 429, 401 or 500 —
surfaces as a 500 whose detail stringifies the original. -/
theorem spec_C9 (url : String) (fetchS : String → Except String String)
    (text : String) (ref : Option String)
    (predict : String → String → Except String JsonVal)
    (fetchJ : JsonVal → Except String String) (auth : Bool)
    (e : HTTPException) :
    (startswith url SPACE_URL = false →
      (download_audio url fetchS).1 =
        Except.error ⟨500, pyStrOfExc (PyExc.http ⟨400, INVALID_URL_DETAIL⟩)⟩ ∧
      (download_audio url fetchS).2 = []) ∧
    ((synthesize_speech text ref predict auth).1 = Except.error e →
      (synthesize_speech_download text ref predict fetchJ auth).1 =
        Except.error ⟨500, pyStrOfExc (PyExc.http e)⟩) := by
  constructor
  · intro h
    constructor
    · simp [download_audio, h]
    · simp [download_audio, h]
  · intro h
    simp [synthesize_speech_download, h]

/-- Witness for C9: the rejected download URL surfaces as a 500 whose
detail stringifies the 400, and a failing synthesis surfaces through
synthesize-download as a 500 whose detail stringifies the inner 500. -/
theorem spec_C9_witness :
    ((download_audio "https://example.org/a.wav" (fun _ => Except.ok "x")).1 =
        Except.error ⟨500, pyStrOfExc (PyExc.http ⟨400, INVALID_URL_DETAIL⟩)⟩ ∧
      (download_audio "https://example.org/a.wav" (fun _ => Except.ok "x")).2 = []) ∧
    (synthesize_speech_download "hi" none (fun _ _ => Except.error "boom")
        (fun _ => Except.ok "x") false).1 =
      Except.error ⟨500, pyStrOfExc (PyExc.http ⟨500, "boom"⟩)⟩ :=
  ⟨(spec_C9 "https://example.org/a.wav" (fun _ => Except.ok "x") "hi" none
      (fun _ _ => Except.error "boom") (fun _ => Except.ok "x") false
      ⟨500, "boom"⟩).1 (by decide),
   (spec_C9 "https://example.org/a.wav" (fun _ => Except.ok "x") "hi" none
      (fun _ _ => Except.error "boom") (fun _ => Except.ok "x") false
      ⟨500, "boom"⟩).2 rfl⟩
